import Mathlib

/-!
# Verification of the tumor-staging classifier

Shallow embedding of `src/utils/image_processor.py` (`analyze_tumor` and
`create_visualization`) together with models of the OpenCV primitives the
module calls (`cv2.cvtColor`, `cv2.GaussianBlur`, `cv2.Canny`,
`cv2.findContours`, `cv2.contourArea`, `cv2.drawContours`,
`cv2.boundingRect`, `cv2.rectangle`).

Numeric representation choices (all exact):
* pixel intensities are `Nat` (uint8 values, 0..255);
* `cv2.contourArea` returns a floating-point value that is always an exact
  multiple of 1/2 (shoelace formula over integer points, divided by 2); we
  carry **twice** the area as a `Nat` (`area2`), so the source comparison
  `largest_area < 1000.0` becomes `area2 < 2000`;
* the float confidence constants `0.95, 0.85, 0.80, 0.75, 0.70` are carried
  in hundredths (`95, 85, 80, 75, 70 : Nat`), exact for these literals;
* Python's `f"{x:.0f}"` formatting (round half to even) becomes an exact
  function on `area2`.
-/

namespace TumorApp

/-- A grayscale pixel grid: list of rows, each row a list of uint8 values. -/
abbrev Gray := List (List Nat)

/-- A three-channel (RGB) pixel grid. -/
abbrev RGBRows := List (List (Nat × Nat × Nat))

/-- Input to `analyze_tumor`: `np.array(image)` is either a 2-D (grayscale)
or 3-D (RGB) array, which the code distinguishes by `len(img_array.shape)`. -/
inductive Img
  | gray (rows : Gray)
  | rgb (rows : RGBRows)
deriving DecidableEq

/-- Height (number of rows) of a grayscale grid. -/
def Gray.height (g : Gray) : Nat := g.length

/-- Width (length of the first row) of a grayscale grid. -/
def Gray.width (g : Gray) : Nat := (g.headD []).length

/-- `numpy` emptiness test (`_src.empty()` inside OpenCV): the grid holds
zero pixels, i.e. every row is empty (this includes "no rows"). -/
def numelZero (g : Gray) : Bool := g.all (fun r => r.isEmpty)

/-- Emptiness for an RGB grid. -/
def numelZeroRGB (r : RGBRows) : Bool := r.all (fun row => row.isEmpty)

/-- A decodable image as produced by `np.array` on a PIL image: rectangular,
with at least one row and one column, and uint8 entries. -/
def Img.Valid : Img → Prop
  | .gray rows =>
      rows ≠ [] ∧ 0 < rows.width ∧
      (∀ r ∈ rows, r.length = rows.width) ∧
      (∀ r ∈ rows, ∀ p ∈ r, p < 256)
  | .rgb rows =>
      rows ≠ [] ∧ 0 < (rows.headD []).length ∧
      (∀ r ∈ rows, r.length = (rows.headD []).length) ∧
      (∀ r ∈ rows, ∀ p ∈ r, p.1 < 256 ∧ p.2.1 < 256 ∧ p.2.2 < 256)

instance : DecidablePred Img.Valid := by
  intro img
  cases img <;> { unfold Img.Valid; infer_instance }

/-- Errors a call of `analyze_tumor` can surface.  The code contains no
`try`/`except` and defines no exception class of its own; the only failure
is the error OpenCV itself raises on an empty source array
(`cv2.error: (-215:Assertion failed) !_src.empty()`).
`invalidImageError` represents the `InvalidImageError` class named by the
spec; it exists in this error domain only so that statements about it can
be written — no code path produces it. -/
inductive PyErr
  | cvError (msg : String)
  | invalidImageError
deriving DecidableEq

/-- The pixel-wise luminance conversion of OpenCV's `COLOR_RGB2GRAY`:
fixed point `y = (4899*R + 9617*G + 1868*B + 2^13) >> 14`. -/
def grayOfRGB (rows : RGBRows) : Gray :=
  rows.map (fun row =>
    row.map (fun p => (4899 * p.1 + 9617 * p.2.1 + 1868 * p.2.2 + 8192) / 16384))

/-- Model of `cv2.cvtColor(img_array, cv2.COLOR_RGB2GRAY)`: luminance
conversion; raises `cv2.error` on an empty source. -/
def cvtColorRGB2GRAY (rows : RGBRows) : Except PyErr Gray :=
  if numelZeroRGB rows then
    Except.error (PyErr.cvError ("!_src.empty() in function cvtColor"))
  else
    Except.ok (grayOfRGB rows)

/-- Model of `cv2.cvtColor(img_array, cv2.COLOR_GRAY2RGB)`: replicate the
intensity into the three channels. -/
def cvtColorGRAY2RGB (rows : Gray) : RGBRows :=
  rows.map (fun row => row.map (fun v => (v, v, v)))

/-- One step of OpenCV's `BORDER_REFLECT_101` index folding. -/
def reflectOnce (n : Nat) (i : Int) : Int :=
  if i < 0 then -i else if (n : Int) ≤ i then 2 * ((n : Int) - 1) - i else i

/-- `BORDER_REFLECT_101` (the `cv2.GaussianBlur` default) for offsets of
magnitude at most 2, as used by a 5×5 kernel; `borderInterpolate` returns 0
outright when the axis has length 1. -/
def reflect101 (n : Nat) (i : Int) : Nat :=
  if n ≤ 1 then 0 else (reflectOnce n (reflectOnce n i)).toNat

/-- Pixel access with `BORDER_REFLECT_101` handling on both axes. -/
def pxRefl (g : Gray) (i j : Int) : Nat :=
  (g.getD (reflect101 g.height i) []).getD (reflect101 g.width j) 0

/-- Horizontal pass of the separable 5×5 Gaussian: for `sigma = 0` and
`ksize = 5` OpenCV uses the fixed binomial taps `[1, 4, 6, 4, 1]` (summing
to 16) on each axis. -/
def rowConv (g : Gray) (i : Int) (j : Nat) : Nat :=
  pxRefl g i ((j : Int) - 2) + 4 * pxRefl g i ((j : Int) - 1) + 6 * pxRefl g i (j : Int)
    + 4 * pxRefl g i ((j : Int) + 1) + pxRefl g i ((j : Int) + 2)

/-- One output pixel of the 5×5 Gaussian blur: vertical pass over the
horizontal passes; OpenCV's fixed-point filter computes exactly
`(Σ k[a]·k[b]·p[i+a-2, j+b-2] + 128) / 256` (floor division), i.e. the
weighted sum rounded to nearest. -/
def blurPx (g : Gray) (i j : Nat) : Nat :=
  (rowConv g ((i : Int) - 2) j + 4 * rowConv g ((i : Int) - 1) j + 6 * rowConv g (i : Int) j
    + 4 * rowConv g ((i : Int) + 1) j + rowConv g ((i : Int) + 2) j + 128) / 256

/-- The full blurred grid. -/
def blurGrid (g : Gray) : Gray :=
  (List.range g.height).map (fun i => (List.range g.width).map (fun j => blurPx g i j))

/-- Model of `cv2.GaussianBlur(gray, (5, 5), 0)`: fixed 5×5 binomial kernel,
`BORDER_REFLECT_101`; raises `cv2.error` when the source is empty. -/
def gaussianBlur5 (g : Gray) : Except PyErr Gray :=
  if numelZero g then
    Except.error (PyErr.cvError ("!_src.empty() in function GaussianBlur"))
  else
    Except.ok (blurGrid g)

/-- Pixel access with `BORDER_REPLICATE` (what `cv2.Sobel` inside `Canny`
uses), returned as `Int` for derivative arithmetic. -/
def pxRep (g : Gray) (i j : Int) : Int :=
  ((g.getD (if i < 0 then 0 else min i.toNat (g.height - 1)) []).getD
    (if j < 0 then 0 else min j.toNat (g.width - 1)) 0 : Nat)

/-- Horizontal Sobel derivative (3×3 aperture), as `cv2.Canny` computes it. -/
def sdx (g : Gray) (i j : Nat) : Int :=
  (pxRep g ((i : Int) - 1) ((j : Int) + 1) + 2 * pxRep g (i : Int) ((j : Int) + 1)
     + pxRep g ((i : Int) + 1) ((j : Int) + 1))
  - (pxRep g ((i : Int) - 1) ((j : Int) - 1) + 2 * pxRep g (i : Int) ((j : Int) - 1)
     + pxRep g ((i : Int) + 1) ((j : Int) - 1))

/-- Vertical Sobel derivative (3×3 aperture). -/
def sdy (g : Gray) (i j : Nat) : Int :=
  (pxRep g ((i : Int) + 1) ((j : Int) - 1) + 2 * pxRep g ((i : Int) + 1) (j : Int)
     + pxRep g ((i : Int) + 1) ((j : Int) + 1))
  - (pxRep g ((i : Int) - 1) ((j : Int) - 1) + 2 * pxRep g ((i : Int) - 1) (j : Int)
     + pxRep g ((i : Int) - 1) ((j : Int) + 1))

/-- L1 gradient magnitude `|dx| + |dy|` (the `cv2.Canny` default). -/
def gmag (g : Gray) (i j : Nat) : Nat := (sdx g i j).natAbs + (sdy g i j).natAbs

/-- Gradient magnitude with the zero padding OpenCV places around its
magnitude buffer (out-of-range neighbours read as 0). -/
def gmagB (g : Gray) (i j : Int) : Nat :=
  if 0 ≤ i ∧ i < (g.height : Int) ∧ 0 ≤ j ∧ j < (g.width : Int) then
    gmag g i.toNat j.toNat
  else 0

/-- The local-maximum test along the quantized gradient direction
(OpenCV's integer sector test with `TG22 = 13573 ≈ tan(22.5°)·2^15`),
evaluated only for pixels above the low threshold. -/
def nmsTest (g : Gray) (i j : Nat) : Bool :=
  let m := gmag g i j
  let xs := sdx g i j
  let ys := sdy g i j
  let x := xs.natAbs
  let y := ys.natAbs * 32768
  let tg22x := x * 13573
  if y < tg22x then
    decide (gmagB g (i : Int) ((j : Int) - 1) < m ∧ gmagB g (i : Int) ((j : Int) + 1) ≤ m)
  else
    let tg67x := tg22x + x * 65536
    if tg67x < y then
      decide (gmagB g ((i : Int) - 1) (j : Int) < m ∧ gmagB g ((i : Int) + 1) (j : Int) ≤ m)
    else
      if xor (decide (xs < 0)) (decide (ys < 0)) then
        decide (gmagB g ((i : Int) - 1) ((j : Int) + 1) < m ∧
                gmagB g ((i : Int) + 1) ((j : Int) - 1) ≤ m)
      else
        decide (gmagB g ((i : Int) - 1) ((j : Int) - 1) < m ∧
                gmagB g ((i : Int) + 1) ((j : Int) + 1) ≤ m)

/-- Non-maximum suppression of `cv2.Canny` at pixel `(i, j)` with low
threshold 30: the pixel survives when its magnitude exceeds the low
threshold and is a local maximum along the gradient direction. -/
def isCand (g : Gray) (i j : Nat) : Bool :=
  if 30 < gmag g i j then nmsTest g i j else false

/-- All `(row, col)` coordinates of an `h × w` grid in raster order. -/
def coordsOf (h w : Nat) : List (Nat × Nat) :=
  (List.range h).flatMap (fun i => (List.range w).map (fun j => (i, j)))

/-- Pixels that survive non-maximum suppression ("might be an edge"). -/
def candList (g : Gray) : List (Nat × Nat) :=
  (coordsOf g.height g.width).filter (fun p => isCand g p.1 p.2)

/-- Candidates whose magnitude also exceeds the high threshold 100
("certainly an edge", the seeds of hysteresis). -/
def seedList (g : Gray) : List (Nat × Nat) :=
  (candList g).filter (fun p => decide (100 < gmag g p.1 p.2))

/-- 8-adjacency of two grid coordinates. -/
def adj8 (p q : Nat × Nat) : Bool :=
  decide (p ≠ q) && decide (p.1 ≤ q.1 + 1) && decide (q.1 ≤ p.1 + 1) &&
  decide (p.2 ≤ q.2 + 1) && decide (q.2 ≤ p.2 + 1)

/-- Hysteresis stage of `cv2.Canny`: grow the set of edges from the strong
seeds through 8-connected weak candidates (fuelled worklist; the fuel used
below always suffices because every candidate is pushed at most once). -/
def hyst (cand : List (Nat × Nat)) :
    Nat → List (Nat × Nat) → List (Nat × Nat) → List (Nat × Nat)
  | 0, _, vis => vis
  | _ + 1, [], vis => vis
  | f + 1, p :: rest, vis =>
      let ns := cand.filter (fun q => adj8 p q && !(vis.contains q))
      hyst cand f (ns ++ rest) (vis ++ ns)

/-- The set of final edge pixels of `cv2.Canny(blurred, 30, 100)`. -/
def cannyEdgeSet (g : Gray) : List (Nat × Nat) :=
  hyst (candList g) (g.height * g.width * 8 + 8) (seedList g) (seedList g)

/-- Model of `cv2.Canny(blurred, 30, 100)`: the binary edge map (255 on
edge pixels, 0 elsewhere). -/
def canny30100 (g : Gray) : Gray :=
  (List.range g.height).map (fun i =>
    (List.range g.width).map (fun j =>
      if (cannyEdgeSet g).contains (i, j) then 255 else 0))

/-- A contour: the boundary points `(x, y)` recorded by border following. -/
abbrev Contour := List (Int × Int)

/-- Read an edge-map pixel at a signed `(x, y)` point (0 outside). -/
def edgeAt (e : Gray) (p : Int × Int) : Nat :=
  if p.1 < 0 ∨ p.2 < 0 then 0
  else (e.getD p.2.toNat []).getD p.1.toNat 0

/-- The eight chain-code displacements used by OpenCV's border following,
counterclockwise from East: E, NE, N, NW, W, SW, S, SE (y grows downward). -/
def delta8 (d : Fin 8) : Int × Int :=
  [((1 : Int), (0 : Int)), (1, -1), (0, -1), (-1, -1),
   (-1, 0), (-1, 1), (0, 1), (1, 1)].getD d.val (0, 0)

/-- Point displaced by one chain-code step. -/
def ptStep (p : Int × Int) (d : Fin 8) : Int × Int :=
  (p.1 + (delta8 d).1, p.2 + (delta8 d).2)

/-- Chain-code direction of a unit displacement (default 0 for non-unit). -/
def dirOf (v : Int × Int) : Fin 8 :=
  if v = (1, 0) then 0 else if v = (1, -1) then 1
  else if v = (0, -1) then 2 else if v = (-1, -1) then 3
  else if v = (-1, 0) then 4 else if v = (-1, 1) then 5
  else if v = (0, 1) then 6 else 7

/-- Clockwise scan of the 8-neighbourhood starting one step clockwise of
West: the directions 3,2,1,0,7,6,5 in order (the Suzuki–Abe step that finds
the first nonzero neighbour of a fresh outer-border start; West itself is
known to be zero there). -/
def firstCW (e : Gray) (p : Int × Int) : Option (Fin 8) :=
  ([3, 2, 1, 0, 7, 6, 5] : List (Fin 8)).find? (fun d => edgeAt e (ptStep p d) != 0)

/-- Counterclockwise search from direction `d+1` for the first nonzero
neighbour of `p` (always succeeds when some neighbour is nonzero). -/
def searchCCW (e : Gray) (p : Int × Int) (d : Fin 8) : Fin 8 :=
  (((List.range 8).map (fun k => (⟨(d.val + k + 1) % 8, Nat.mod_lt _ (by omega)⟩ : Fin 8))).find?
      (fun s => edgeAt e (ptStep p s) != 0)).getD d

/-- The border-following loop of Suzuki–Abe (steps 3.3–3.5), fuelled.
`start`/`i1` are the border's first pixel and first neighbour; `i2` is the
previously visited pixel, `i3` the current one; the trace stops when it is
about to retraverse the initial edge `i1 → start`. -/
def traceLoop (e : Gray) (start i1 : Int × Int) :
    Nat → Int × Int → Int × Int → List (Int × Int) → List (Int × Int)
  | 0, _, _, acc => acc.reverse
  | f + 1, i2, i3, acc =>
      let d := dirOf (i2.1 - i3.1, i2.2 - i3.2)
      let d4 := searchCCW e i3 d
      let i4 := ptStep i3 d4
      if i4 = start ∧ i3 = i1 then (i3 :: acc).reverse
      else traceLoop e start i1 f i3 i4 (i3 :: acc)

/-- Follow one outer border starting at `p` (whose West neighbour is zero):
Suzuki–Abe steps 3.1–3.5.  An isolated pixel yields the one-point contour. -/
def traceBorder (e : Gray) (p : Int × Int) : Contour :=
  match firstCW e p with
  | none => [p]
  | some d1 =>
      traceLoop e p (ptStep p d1) (e.height * (e.width * 4 + 4) + 8) (ptStep p d1) p []

/-- Model of `cv2.findContours(edges, cv2.RETR_EXTERNAL,
cv2.CHAIN_APPROX_SIMPLE)`: raster scan for outer-border starts (a nonzero
pixel whose West neighbour is zero and that no earlier border visited),
each followed by Suzuki–Abe border tracing.  The point-run compression of
`CHAIN_APPROX_SIMPLE` is not modelled: it removes collinear intermediate
points, which changes neither the number of contours nor any enclosed area.
Hole borders (which arise only for edge maps with interior holes) are not
suppressed; no theorem below depends on such inputs. -/
def findContoursExt (e : Gray) : List Contour :=
  ((coordsOf e.height e.width).foldl (fun st c =>
      let p : Int × Int := ((c.2 : Int), (c.1 : Int))
      if edgeAt e p ≠ 0 ∧ edgeAt e (p.1 - 1, p.2) = 0 ∧ ¬ st.2.contains p then
        let tr := traceBorder e p
        (st.1 ++ [tr], st.2 ++ tr)
      else st) (([], []) : List Contour × List (Int × Int))).1

/-- Cross product term of the shoelace formula. -/
def cross2 (a b : Int × Int) : Int := a.1 * b.2 - b.1 * a.2

/-- Twice the signed polygon area of a contour (shoelace over the closed
point sequence). -/
def shoelace2 (c : Contour) : Int :=
  ((c.zip (c.drop 1 ++ c.take 1)).foldl (fun s pq => s + cross2 pq.1 pq.2) 0)

/-- Model of `cv2.contourArea(cnt)`, scaled by 2 to stay in `Nat`:
`contourArea` returns `|shoelace| / 2`, always an exact multiple of 1/2, so
`area2 c = 2 * cv2.contourArea c` exactly. -/
def area2 (c : Contour) : Nat := (shoelace2 c).natAbs

/-- Twice the value of `largest_area = max(tumor_areas)` in the source
(`max` of a nonempty Python list folds over the tail from the head). -/
def largestArea2 (cs : List Contour) : Nat :=
  match cs.map area2 with
  | [] => 0
  | a :: rest => rest.foldl max a

/-- Python's `f"{x:.0f}"` on a float that is an exact multiple of 1/2,
expressed on twice the value: round half to even. -/
def halfRoundEven (a2 : Nat) : Nat :=
  if a2 % 2 = 0 then a2 / 2
  else if (a2 / 2) % 2 = 0 then a2 / 2 else a2 / 2 + 1

/-- The staging verdict dictionary returned by `analyze_tumor`.
`confidence100` carries the float confidence in exact hundredths;
`location` is `none` exactly when the key is absent from the dictionary. -/
structure Verdict where
  stage : String
  confidence100 : Nat
  tumor_count : Nat
  largest_size : String
  malignancy : String
  location : Option String
deriving DecidableEq

/-- The `if/elif` staging chain of `analyze_tumor` (lines 40–55), mapping
twice the largest area to `(stage, confidence·100, malignancy)`; the source
thresholds 1000/5000/15000 on the area appear doubled. -/
def staging (a2 : Nat) : String × Nat × String :=
  if a2 < 2000 then ("Stage I", 85, "Low")
  else if a2 < 10000 then ("Stage II", 80, "Moderate")
  else if a2 < 30000 then ("Stage III", 75, "High")
  else ("Stage IV", 70, "High")

/-- The contour-producing prefix of `analyze_tumor` (lines 9–24): convert
to grayscale, blur, detect edges, extract external contours; an OpenCV
error aborts the call. -/
def pipelineContours (image : Img) : Except PyErr (List Contour) :=
  match (match image with
         | .rgb rows => cvtColorRGB2GRAY rows
         | .gray rows => Except.ok rows) with
  | .error e => .error e
  | .ok gray =>
      match gaussianBlur5 gray with
      | .error e => .error e
      | .ok blurred => .ok (findContoursExt (canny30100 blurred))

/-- The dictionary `analyze_tumor` returns when `len(contours) == 0`. -/
def noTumorVerdict : Verdict :=
  { stage := "No tumor detected", confidence100 := 95, tumor_count := 0,
    largest_size := "0 pixels", malignancy := "None", location := none }

/-- The dictionary `analyze_tumor` returns when at least one contour was
found (lines 36–64 of the source). -/
def tumorVerdict (contours : List Contour) : Verdict :=
  { stage := (staging (largestArea2 contours)).1,
    confidence100 := (staging (largestArea2 contours)).2.1,
    tumor_count := contours.length,
    largest_size := toString (halfRoundEven (largestArea2 contours)) ++ " pixels",
    malignancy := (staging (largestArea2 contours)).2.2,
    location := some (if 1 < contours.length then "Multiple regions"
                      else "Single region") }

/-- Embedding of `analyze_tumor` from `src/utils/image_processor.py`
(an uncaught OpenCV error propagates to the caller unchanged). -/
def analyze_tumor (image : Img) : Except PyErr Verdict :=
  match pipelineContours image with
  | .error e => .error e
  | .ok contours =>
      if contours.length = 0 then .ok noTumorVerdict
      else .ok (tumorVerdict contours)

/-! ## Basic facts about `analyze_tumor` -/

/-- Every successful verdict comes from the contour list of the pipeline:
either the zero-contour branch or the staging branch. -/
lemma analyze_ok_cases (img : Img) (v : Verdict)
    (h : analyze_tumor img = Except.ok v) :
    ∃ cs, pipelineContours img = Except.ok cs ∧
      ((cs.length = 0 ∧ v = noTumorVerdict) ∨
       (cs.length ≠ 0 ∧ v = tumorVerdict cs)) := by
  unfold analyze_tumor at h
  cases hp : pipelineContours img with
  | error e => rw [hp] at h; exact absurd h (by simp)
  | ok cs =>
      rw [hp] at h
      replace h : (if cs.length = 0 then Except.ok noTumorVerdict
          else Except.ok (tumorVerdict cs)) = Except.ok v := h
      refine ⟨cs, rfl, ?_⟩
      by_cases h0 : cs.length = 0
      · rw [if_pos h0, Except.ok.injEq] at h
        exact Or.inl ⟨h0, h.symm⟩
      · rw [if_neg h0, Except.ok.injEq] at h
        exact Or.inr ⟨h0, h.symm⟩

/-- When the pipeline yields contours, `analyze_tumor` returns the staging
branch verdict. -/
lemma analyze_eq_tumorVerdict (img : Img) (cs : List Contour)
    (hp : pipelineContours img = Except.ok cs) (hne : cs ≠ []) :
    analyze_tumor img = Except.ok (tumorVerdict cs) := by
  have h0 : cs.length ≠ 0 := fun h => hne (List.length_eq_zero.mp h)
  unfold analyze_tumor
  rw [hp]
  show (if cs.length = 0 then Except.ok noTumorVerdict
      else Except.ok (tumorVerdict cs)) = Except.ok (tumorVerdict cs)
  rw [if_neg h0]

/-- When the pipeline yields no contours, `analyze_tumor` returns the
no-tumor verdict. -/
lemma analyze_eq_noTumor (img : Img) (hp : pipelineContours img = Except.ok []) :
    analyze_tumor img = Except.ok noTumorVerdict := by
  unfold analyze_tumor
  rw [hp]
  rfl

/-- The staging chain hits exactly the threshold intervals of the table
(arguments are twice the float area). -/
lemma staging_spec (a : Nat) :
    (a < 2000 → staging a = ("Stage I", 85, "Low")) ∧
    (2000 ≤ a ∧ a < 10000 → staging a = ("Stage II", 80, "Moderate")) ∧
    (10000 ≤ a ∧ a < 30000 → staging a = ("Stage III", 75, "High")) ∧
    (30000 ≤ a → staging a = ("Stage IV", 70, "High")) := by
  unfold staging
  refine ⟨fun h => ?_, fun h => ?_, fun h => ?_, fun h => ?_⟩ <;>
    (split_ifs <;> first | rfl | omega)

/-- Witness image: a single-row image with one bright pixel.  Its pipeline
produces two isolated edge pixels, hence two one-point contours. -/
def wSpike : Img := Img.gray [[0, 0, 0, 255, 0, 0, 0]]

/-- The contour list the pipeline extracts from `wSpike`. -/
def wSpikeCs : List Contour := [[(2, 0)], [(4, 0)]]

/-! ## C1: the fixed threshold table -/

/-- C1.  For every image on which the pipeline detects at least one
contour, the verdict is determined exactly by the fixed thresholds on the
largest contour area `A`, with boundaries inclusive on the upper class.
`largestArea2 cs` is twice the float `largest_area` of the source (the
area is an exact multiple of 1/2), so the source conditions `A < 1000`,
`A < 5000`, `A < 15000` appear as `area2 < 2000`, `< 10000`, `< 30000`;
in particular `A = 1000` (area2 = 2000) classifies as Stage II. -/
theorem analyze_threshold_table (img : Img) (cs : List Contour)
    (hp : pipelineContours img = Except.ok cs) (hne : cs ≠ []) :
    ∃ v, analyze_tumor img = Except.ok v ∧ v.tumor_count = cs.length ∧
      (largestArea2 cs < 2000 →
        v.stage = "Stage I" ∧ v.confidence100 = 85 ∧ v.malignancy = "Low") ∧
      (2000 ≤ largestArea2 cs ∧ largestArea2 cs < 10000 →
        v.stage = "Stage II" ∧ v.confidence100 = 80 ∧ v.malignancy = "Moderate") ∧
      (10000 ≤ largestArea2 cs ∧ largestArea2 cs < 30000 →
        v.stage = "Stage III" ∧ v.confidence100 = 75 ∧ v.malignancy = "High") ∧
      (30000 ≤ largestArea2 cs →
        v.stage = "Stage IV" ∧ v.confidence100 = 70 ∧ v.malignancy = "High") := by
  refine ⟨tumorVerdict cs, analyze_eq_tumorVerdict img cs hp hne, rfl,
    fun ha => ?_, fun ha => ?_, fun ha => ?_, fun ha => ?_⟩ <;>
    simp only [tumorVerdict]
  · rw [(staging_spec (largestArea2 cs)).1 ha]; exact ⟨rfl, rfl, rfl⟩
  · rw [(staging_spec (largestArea2 cs)).2.1 ha]; exact ⟨rfl, rfl, rfl⟩
  · rw [(staging_spec (largestArea2 cs)).2.2.1 ha]; exact ⟨rfl, rfl, rfl⟩
  · rw [(staging_spec (largestArea2 cs)).2.2.2 ha]; exact ⟨rfl, rfl, rfl⟩

/-- Witness for C1: on `wSpike` the pipeline finds the two one-point
contours; their largest area is 0 < 1000, so the verdict is Stage I with
confidence 0.85 and malignancy Low. -/
theorem analyze_threshold_table_witness :
    wSpikeCs ≠ [] ∧ largestArea2 wSpikeCs < 2000 ∧
    ∃ v, analyze_tumor wSpike = Except.ok v ∧
      v.stage = "Stage I" ∧ v.confidence100 = 85 ∧ v.malignancy = "Low" := by
  refine ⟨by decide, by decide, ?_⟩
  obtain ⟨v, hv, -, hca, -, -, -⟩ :=
    analyze_threshold_table wSpike wSpikeCs rfl (by decide)
  exact ⟨v, hv, hca (by decide)⟩

/-! ## C3: the zero-contour verdict -/

/-- C3.  When the pipeline detects zero contours, `analyze_tumor` returns
stage "No tumor detected", confidence 0.95 (= 95 hundredths),
`tumor_count = 0`, `largest_size = "0 pixels"`, malignancy "None", and the
`location` key is absent (`none`). -/
theorem zero_contours_verdict (img : Img)
    (hp : pipelineContours img = Except.ok []) :
    analyze_tumor img = Except.ok
      { stage := "No tumor detected", confidence100 := 95, tumor_count := 0,
        largest_size := "0 pixels", malignancy := "None", location := none } :=
  analyze_eq_noTumor img hp

/-- Witness for C3 at a concrete blank 1×1 image. -/
theorem zero_contours_verdict_witness :
    pipelineContours (Img.gray [[0]]) = Except.ok [] ∧
    analyze_tumor (Img.gray [[0]]) = Except.ok
      { stage := "No tumor detected", confidence100 := 95, tumor_count := 0,
        largest_size := "0 pixels", malignancy := "None", location := none } :=
  ⟨rfl, zero_contours_verdict (Img.gray [[0]]) rfl⟩

/-! ## C6: determinism -/

/-- C6.  `analyze_tumor` is deterministic: two calls on the identical image
return identical results (the embedding is a pure function of the pixel
grid; the source reads no global state and draws no randomness). -/
theorem analyze_deterministic (img : Img) (r₁ r₂ : Except PyErr Verdict)
    (h₁ : analyze_tumor img = r₁) (h₂ : analyze_tumor img = r₂) : r₁ = r₂ := by
  rw [← h₁, ← h₂]

/-- Witness for C6 at a concrete image. -/
theorem analyze_deterministic_witness :
    Except.ok noTumorVerdict = analyze_tumor (Img.gray [[0]]) :=
  analyze_deterministic (Img.gray [[0]]) (Except.ok noTumorVerdict)
    (analyze_tumor (Img.gray [[0]])) rfl rfl

/-! ## C4: the fixed confidence set -/

/-- The (derived) constant confidence attached to each stage label by the
staging branches, in hundredths. -/
def confidence100OfStage (s : String) : Nat :=
  if s = "No tumor detected" then 95
  else if s = "Stage I" then 85
  else if s = "Stage II" then 80
  else if s = "Stage III" then 75
  else if s = "Stage IV" then 70
  else 0

/-- C4.  Every verdict's confidence lies in the fixed constant set
{0.95, 0.85, 0.80, 0.75, 0.70} (carried in exact hundredths), and it is
the fixed constant determined by the stage label. -/
theorem confidence_fixed_set (img : Img) (v : Verdict)
    (h : analyze_tumor img = Except.ok v) :
    (v.confidence100 = 95 ∨ v.confidence100 = 85 ∨ v.confidence100 = 80 ∨
     v.confidence100 = 75 ∨ v.confidence100 = 70) ∧
    v.confidence100 = confidence100OfStage v.stage := by
  obtain ⟨cs, hp, hcase⟩ := analyze_ok_cases img v h
  rcases hcase with ⟨h0, rfl⟩ | ⟨h0, rfl⟩
  · exact ⟨Or.inl rfl, by decide⟩
  · simp only [tumorVerdict]
    unfold staging
    split_ifs <;> exact ⟨by decide, by decide⟩

/-- Witness for C4 at a concrete blank 1×1 image. -/
theorem confidence_fixed_set_witness :
    (noTumorVerdict.confidence100 = 95 ∨ noTumorVerdict.confidence100 = 85 ∨
     noTumorVerdict.confidence100 = 80 ∨ noTumorVerdict.confidence100 = 75 ∨
     noTumorVerdict.confidence100 = 70) ∧
    noTumorVerdict.confidence100 = confidence100OfStage noTumorVerdict.stage :=
  confidence_fixed_set (Img.gray [[0]]) noTumorVerdict rfl

/-! ## C5: count / stage / malignancy biconditional -/

/-- C5.  For every verdict, `tumor_count = 0` iff the stage is
"No tumor detected" iff the malignancy is "None". -/
theorem count_stage_malignancy_iff (img : Img) (v : Verdict)
    (h : analyze_tumor img = Except.ok v) :
    (v.tumor_count = 0 ↔ v.stage = "No tumor detected") ∧
    (v.stage = "No tumor detected" ↔ v.malignancy = "None") := by
  obtain ⟨cs, hp, hcase⟩ := analyze_ok_cases img v h
  rcases hcase with ⟨h0, rfl⟩ | ⟨h0, rfl⟩
  · exact ⟨by decide, by decide⟩
  · simp only [tumorVerdict]
    unfold staging
    split_ifs <;>
      exact ⟨iff_of_false h0 (by decide), iff_of_false (by decide) (by decide)⟩

/-- Witness for C5 at a concrete blank 1×1 image. -/
theorem count_stage_malignancy_iff_witness :
    (noTumorVerdict.tumor_count = 0 ↔ noTumorVerdict.stage = "No tumor detected") ∧
    (noTumorVerdict.stage = "No tumor detected" ↔ noTumorVerdict.malignancy = "None") :=
  count_stage_malignancy_iff (Img.gray [[0]]) noTumorVerdict rfl

/-! ## C2: error behaviour (corrected) -/

/-- Zero-pixel test on either image kind. -/
def imgNumelZero : Img → Bool
  | .gray g => numelZero g
  | .rgb r => numelZeroRGB r

/-- `gaussianBlur5` on an empty grid raises the OpenCV assertion error. -/
lemma gaussianBlur5_empty (g : Gray) (hz : numelZero g = true) :
    gaussianBlur5 g =
      Except.error (PyErr.cvError ("!_src.empty() in function GaussianBlur")) := by
  unfold gaussianBlur5; rw [if_pos hz]

/-- `gaussianBlur5` on a non-empty grid succeeds. -/
lemma gaussianBlur5_ok (g : Gray) (hz : numelZero g = false) :
    gaussianBlur5 g = Except.ok (blurGrid g) := by
  unfold gaussianBlur5
  rw [if_neg (by rw [hz]; exact Bool.false_ne_true)]

/-- Luminance conversion preserves row emptiness. -/
lemma numelZero_grayOfRGB (rows : RGBRows) :
    numelZero (grayOfRGB rows) = numelZeroRGB rows := by
  induction rows with
  | nil => rfl
  | cons r t ih =>
      show ((r.map fun p =>
          (4899 * p.1 + 9617 * p.2.1 + 1868 * p.2.2 + 8192) / 16384).isEmpty
        && numelZero (grayOfRGB t)) = (r.isEmpty && numelZeroRGB t)
      rw [ih]
      cases r <;> rfl

/-- The pipeline on a grayscale image, unfolded one step. -/
lemma pipeline_gray (g : Gray) :
    pipelineContours (Img.gray g) =
      match gaussianBlur5 g with
      | .error e => .error e
      | .ok b => .ok (findContoursExt (canny30100 b)) := rfl

/-- The pipeline on an RGB image, unfolded one step. -/
lemma pipeline_rgb (rows : RGBRows) :
    pipelineContours (Img.rgb rows) =
      match cvtColorRGB2GRAY rows with
      | .error e => .error e
      | .ok gray =>
          match gaussianBlur5 gray with
          | .error e => .error e
          | .ok b => .ok (findContoursExt (canny30100 b)) := rfl

/-- A successful pipeline always yields a verdict. -/
lemma analyze_ok_of_pipeline_ok (img : Img) (cs : List Contour)
    (hp : pipelineContours img = Except.ok cs) :
    ∃ v, analyze_tumor img = Except.ok v := by
  unfold analyze_tumor
  rw [hp]
  by_cases h0 : cs.length = 0
  · refine ⟨noTumorVerdict, ?_⟩
    show (if cs.length = 0 then Except.ok noTumorVerdict
        else Except.ok (tumorVerdict cs)) = _
    rw [if_pos h0]
  · refine ⟨tumorVerdict cs, ?_⟩
    show (if cs.length = 0 then Except.ok noTumorVerdict
        else Except.ok (tumorVerdict cs)) = _
    rw [if_neg h0]

/-- On a non-empty image the pipeline returns `Except.ok`. -/
lemma pipeline_ok_of_nonempty (img : Img) (hz : imgNumelZero img = false) :
    ∃ cs, pipelineContours img = Except.ok cs := by
  cases img with
  | gray g =>
      refine ⟨findContoursExt (canny30100 (blurGrid g)), ?_⟩
      rw [pipeline_gray, gaussianBlur5_ok g hz]
  | rgb rows =>
      refine ⟨findContoursExt (canny30100 (blurGrid (grayOfRGB rows))), ?_⟩
      have hcv : cvtColorRGB2GRAY rows = Except.ok (grayOfRGB rows) := by
        unfold cvtColorRGB2GRAY
        rw [if_neg (by rw [show numelZeroRGB rows = false from hz]; exact Bool.false_ne_true)]
      rw [pipeline_rgb, hcv]
      show (match gaussianBlur5 (grayOfRGB rows) with
            | Except.error e => Except.error e
            | Except.ok b => Except.ok (findContoursExt (canny30100 b))) = _
      rw [gaussianBlur5_ok (grayOfRGB rows) (by rw [numelZero_grayOfRGB]; exact hz)]

/-- On a zero-pixel image the pipeline raises the OpenCV error. -/
lemma pipeline_error_of_empty (img : Img) (hz : imgNumelZero img = true) :
    ∃ m, pipelineContours img = Except.error (PyErr.cvError m) := by
  cases img with
  | gray g =>
      refine ⟨"!_src.empty() in function GaussianBlur", ?_⟩
      rw [pipeline_gray, gaussianBlur5_empty g hz]
  | rgb rows =>
      refine ⟨"!_src.empty() in function cvtColor", ?_⟩
      have hcv : cvtColorRGB2GRAY rows =
          Except.error (PyErr.cvError ("!_src.empty() in function cvtColor")) := by
        unfold cvtColorRGB2GRAY
        rw [if_pos (show numelZeroRGB rows = true from hz)]
      rw [pipeline_rgb, hcv]

/-- C2 (amended).  `analyze_tumor` fails exactly on zero-pixel input, the
error it surfaces is always the propagated OpenCV `cv2.error` — the code
defines and raises no `InvalidImageError` — and an error never comes with a
(partial) verdict. -/
theorem analyze_error_behavior (img : Img) :
    ((∃ e, analyze_tumor img = Except.error e) ↔ imgNumelZero img = true) ∧
    (∀ e, analyze_tumor img = Except.error e → ∃ m, e = PyErr.cvError m) ∧
    analyze_tumor img ≠ Except.error PyErr.invalidImageError := by
  cases hz : imgNumelZero img with
  | true =>
      obtain ⟨m, hp⟩ := pipeline_error_of_empty img hz
      have ha : analyze_tumor img = Except.error (PyErr.cvError m) := by
        unfold analyze_tumor; rw [hp]
      refine ⟨⟨fun _ => rfl, fun _ => ⟨_, ha⟩⟩, fun e he => ?_, ?_⟩
      · obtain rfl : PyErr.cvError m = e := by
          have h2 := ha.symm.trans he
          exact (Except.error.injEq _ _).mp h2
        exact ⟨m, rfl⟩
      · rw [ha]
        intro hcontra
        exact PyErr.noConfusion ((Except.error.injEq _ _).mp hcontra)
  | false =>
      obtain ⟨cs, hp⟩ := pipeline_ok_of_nonempty img hz
      obtain ⟨v, hv⟩ := analyze_ok_of_pipeline_ok img cs hp
      refine ⟨⟨fun he => ?_, fun he => absurd he (by decide)⟩,
        fun e he => ?_, ?_⟩
      · obtain ⟨e, he⟩ := he
        rw [hv] at he
        exact absurd he (by simp)
      · rw [hv] at he
        exact absurd he (by simp)
      · rw [hv]
        simp

/-- Witness for C2's amended theorem: the error surfaced on the 0×0 image
is an OpenCV `cv2.error`. -/
theorem analyze_error_behavior_witness :
    ∃ m, PyErr.cvError ("!_src.empty() in function GaussianBlur") = PyErr.cvError m :=
  (analyze_error_behavior (Img.gray [])).2.1
    (PyErr.cvError ("!_src.empty() in function GaussianBlur")) rfl

/-- C2 counterexample.  On the 0×0 (zero-area) image the code does not
raise the spec's `InvalidImageError`: it propagates OpenCV's own
`cv2.error` assertion failure from `cv2.GaussianBlur`. -/
theorem zero_image_error_is_cv_not_invalid :
    analyze_tumor (Img.gray []) =
      Except.error (PyErr.cvError ("!_src.empty() in function GaussianBlur")) ∧
    analyze_tumor (Img.gray []) ≠ Except.error PyErr.invalidImageError := by
  constructor
  · rfl
  · intro h
    have h2 := (show analyze_tumor (Img.gray []) =
        Except.error (PyErr.cvError ("!_src.empty() in function GaussianBlur"))
      from rfl).symm.trans h
    exact PyErr.noConfusion ((Except.error.injEq _ _).mp h2)

/-! ## C9: stage–malignancy correlation (corrected) -/

/-- C9 counterexample.  The stage→malignancy map over verdicts is not
injective: a Stage III verdict (largest area 6050 px², from a 110×110
square contour) and a Stage IV verdict (largest area 40000 px², from a
200×200 square contour) have different stages but the same malignancy
"High". -/
theorem stage_malignancy_not_injective :
    (tumorVerdict [[(0, 0), (110, 0), (110, 110), (0, 110)]]).stage ≠
      (tumorVerdict [[(0, 0), (200, 0), (200, 200), (0, 200)]]).stage ∧
    (tumorVerdict [[(0, 0), (110, 0), (110, 110), (0, 110)]]).malignancy =
      (tumorVerdict [[(0, 0), (200, 0), (200, 200), (0, 200)]]).malignancy ∧
    (tumorVerdict [[(0, 0), (110, 0), (110, 110), (0, 110)]]).stage = "Stage III" ∧
    (tumorVerdict [[(0, 0), (200, 0), (200, 200), (0, 200)]]).stage = "Stage IV" := by
  decide

/-- Every verdict's (stage, malignancy) pair is one of the five the code
can build. -/
lemma verdict_pair_mem (img : Img) (v : Verdict)
    (h : analyze_tumor img = Except.ok v) :
    (v.stage, v.malignancy) ∈
      [("No tumor detected", "None"), ("Stage I", "Low"), ("Stage II", "Moderate"),
       ("Stage III", "High"), ("Stage IV", "High")] := by
  obtain ⟨cs, hp, hcase⟩ := analyze_ok_cases img v h
  rcases hcase with ⟨h0, rfl⟩ | ⟨h0, rfl⟩
  · decide
  · simp only [tumorVerdict]
    unfold staging
    split_ifs <;> decide

/-- C9 (amended).  Malignancy is a function of the stage bucket (same
stage ⇒ same malignancy), and the correspondence is injective except that
Stage III and Stage IV share "High": equal malignancy other than "High"
forces equal stages. -/
theorem malignancy_of_stage_amended (i₁ i₂ : Img) (v₁ v₂ : Verdict)
    (h₁ : analyze_tumor i₁ = Except.ok v₁) (h₂ : analyze_tumor i₂ = Except.ok v₂) :
    (v₁.stage = v₂.stage → v₁.malignancy = v₂.malignancy) ∧
    (v₁.malignancy = v₂.malignancy → v₁.malignancy ≠ "High" → v₁.stage = v₂.stage) := by
  have p₁ := verdict_pair_mem i₁ v₁ h₁
  have p₂ := verdict_pair_mem i₂ v₂ h₂
  simp only [List.mem_cons, List.not_mem_nil, or_false, Prod.mk.injEq] at p₁ p₂
  rcases p₁ with ⟨hs₁, hm₁⟩ | ⟨hs₁, hm₁⟩ | ⟨hs₁, hm₁⟩ | ⟨hs₁, hm₁⟩ | ⟨hs₁, hm₁⟩ <;>
    rcases p₂ with ⟨hs₂, hm₂⟩ | ⟨hs₂, hm₂⟩ | ⟨hs₂, hm₂⟩ | ⟨hs₂, hm₂⟩ | ⟨hs₂, hm₂⟩ <;>
    rw [hs₁, hm₁, hs₂, hm₂] <;> exact (by decide)

/-- Witness for C9's amended theorem at two concrete calls. -/
theorem malignancy_of_stage_amended_witness :
    (noTumorVerdict.stage = noTumorVerdict.stage →
      noTumorVerdict.malignancy = noTumorVerdict.malignancy) ∧
    (noTumorVerdict.malignancy = noTumorVerdict.malignancy →
      noTumorVerdict.malignancy ≠ "High" →
      noTumorVerdict.stage = noTumorVerdict.stage) :=
  malignancy_of_stage_amended (Img.gray [[0]]) (Img.gray [[0]])
    noTumorVerdict noTumorVerdict rfl rfl

/-! ## C10: largest_size formatting -/

/-- C10.  In the at-least-one-contour branch `largest_size` is the float
largest area formatted with Python's `f"{x:.0f}"` (round half to even,
here `halfRoundEven` on twice the area) plus a " pixels" suffix — and
there is a valid input with a detected contour whose area is 0.0, for
which the verdict says `"0 pixels"` with `tumor_count > 0` and a stage
other than "No tumor detected". -/
theorem largest_size_rounded :
    (∀ img cs v, pipelineContours img = Except.ok cs → cs ≠ [] →
        analyze_tumor img = Except.ok v →
        v.largest_size = toString (halfRoundEven (largestArea2 cs)) ++ " pixels" ∧
        0 < v.tumor_count) ∧
    (Img.Valid wSpike ∧
      ∃ v, analyze_tumor wSpike = Except.ok v ∧ 0 < v.tumor_count ∧
        v.largest_size = "0 pixels" ∧ v.stage ≠ "No tumor detected") := by
  constructor
  · intro img cs v hp hne hv
    have hv2 := analyze_eq_tumorVerdict img cs hp hne
    obtain rfl : v = tumorVerdict cs :=
      (Except.ok.injEq _ _).mp (hv.symm.trans hv2)
    exact ⟨rfl, List.length_pos.mpr hne⟩
  · exact ⟨by decide, tumorVerdict wSpikeCs, rfl, by decide, by decide, by decide⟩

/-- Witness for C10's universally quantified part at `wSpike`. -/
theorem largest_size_rounded_witness :
    (tumorVerdict wSpikeCs).largest_size =
      toString (halfRoundEven (largestArea2 wSpikeCs)) ++ " pixels" ∧
    0 < (tumorVerdict wSpikeCs).tumor_count :=
  largest_size_rounded.1 wSpike wSpikeCs (tumorVerdict wSpikeCs) rfl (by decide) rfl

/-! ## C7: uniformly blank images -/

/-- A constant-intensity grayscale image. -/
def blankG (h w c : Nat) : Gray := List.replicate h (List.replicate w c)

/-- A constant-colour RGB image. -/
def blankRGB (h w r g b : Nat) : RGBRows :=
  List.replicate h (List.replicate w (r, g, b))

/-- `getD` on a replicated list. -/
lemma getD_replicate {α : Type} (n k : Nat) (x d : α) :
    (List.replicate n x).getD k d = if k < n then x else d := by
  induction n generalizing k with
  | zero => simp
  | succ m ih =>
      cases k with
      | zero => simp [List.replicate_succ]
      | succ k2 =>
          rw [List.replicate_succ, List.getD_cons_succ, ih]
          simp [Nat.succ_lt_succ_iff]

/-- Height of a blank image. -/
lemma blankG_height (h w c : Nat) : (blankG h w c).height = h := by
  simp [blankG, Gray.height]

/-- Width of a blank image with at least one row. -/
lemma blankG_width (h w c : Nat) (hh : 0 < h) : (blankG h w c).width = w := by
  unfold blankG Gray.width
  cases h with
  | zero => omega
  | succ m => rw [List.replicate_succ]; simp

/-- `BORDER_REFLECT_101` keeps a kernel offset of magnitude ≤ 2 inside the
axis range. -/
lemma reflect101_lt (n : Nat) (i : Int) (hn : 0 < n) (h1 : -2 ≤ i)
    (h2 : i ≤ (n : Int) + 1) : reflect101 n i < n := by
  unfold reflect101 reflectOnce
  split_ifs <;> omega

/-- Reading a blank image through the blur border handling gives the
constant. -/
lemma pxRefl_blank (h w c : Nat) (i j : Int) (hh : 0 < h) (hw : 0 < w)
    (hi1 : -2 ≤ i) (hi2 : i ≤ (h : Int) + 1) (hj1 : -2 ≤ j)
    (hj2 : j ≤ (w : Int) + 1) : pxRefl (blankG h w c) i j = c := by
  unfold pxRefl
  rw [blankG_height, blankG_width h w c hh,
      show blankG h w c = List.replicate h (List.replicate w c) from rfl,
      getD_replicate, if_pos (reflect101_lt h i hh hi1 hi2),
      getD_replicate, if_pos (reflect101_lt w j hw hj1 hj2)]

/-- The horizontal blur pass is constant on a blank image. -/
lemma rowConv_blank (h w c : Nat) (i : Int) (j : Nat) (hh : 0 < h) (hw : 0 < w)
    (hi1 : -2 ≤ i) (hi2 : i ≤ (h : Int) + 1) (hj : j < w) :
    rowConv (blankG h w c) i j = 16 * c := by
  unfold rowConv
  rw [pxRefl_blank h w c i ((j : Int) - 2) hh hw hi1 hi2 (by omega) (by omega),
      pxRefl_blank h w c i ((j : Int) - 1) hh hw hi1 hi2 (by omega) (by omega),
      pxRefl_blank h w c i (j : Int) hh hw hi1 hi2 (by omega) (by omega),
      pxRefl_blank h w c i ((j : Int) + 1) hh hw hi1 hi2 (by omega) (by omega),
      pxRefl_blank h w c i ((j : Int) + 2) hh hw hi1 hi2 (by omega) (by omega)]
  ring

/-- The blur leaves a blank image unchanged: the kernel weights sum to 256
and `(256·c + 128) / 256 = c`. -/
lemma blurPx_blank (h w c i j : Nat) (hh : 0 < h) (hw : 0 < w) (hi : i < h)
    (hj : j < w) : blurPx (blankG h w c) i j = c := by
  unfold blurPx
  rw [rowConv_blank h w c ((i : Int) - 2) j hh hw (by omega) (by omega) hj,
      rowConv_blank h w c ((i : Int) - 1) j hh hw (by omega) (by omega) hj,
      rowConv_blank h w c (i : Int) j hh hw (by omega) (by omega) hj,
      rowConv_blank h w c ((i : Int) + 1) j hh hw (by omega) (by omega) hj,
      rowConv_blank h w c ((i : Int) + 2) j hh hw (by omega) (by omega) hj]
  omega

/-- The blurred grid of a blank image is the blank image. -/
lemma blurGrid_blank (h w c : Nat) (hh : 0 < h) (hw : 0 < w) :
    blurGrid (blankG h w c) = blankG h w c := by
  unfold blurGrid
  rw [blankG_height, blankG_width h w c hh]
  refine List.eq_replicate_iff.mpr ⟨by simp, fun row hrow => ?_⟩
  obtain ⟨i, hi, rfl⟩ := List.mem_map.mp hrow
  refine List.eq_replicate_iff.mpr ⟨by simp, fun px hpx => ?_⟩
  obtain ⟨j, hj, rfl⟩ := List.mem_map.mp hpx
  exact blurPx_blank h w c i j hh hw (List.mem_range.mp hi) (List.mem_range.mp hj)

/-- A blank image with positive dimensions has pixels. -/
lemma numelZero_blank (h w c : Nat) (hh : 0 < h) (hw : 0 < w) :
    numelZero (blankG h w c) = false := by
  cases h with
  | zero => omega
  | succ m =>
      cases w with
      | zero => omega
      | succ k => rfl

/-- Replicate-border pixel access on a blank image is the constant
(any index). -/
lemma pxRep_blank (h w c : Nat) (hh : 0 < h) (hw : 0 < w) (i j : Int) :
    pxRep (blankG h w c) i j = (c : Int) := by
  unfold pxRep
  rw [blankG_height, blankG_width h w c hh,
      show blankG h w c = List.replicate h (List.replicate w c) from rfl,
      getD_replicate, if_pos (show (if i < 0 then 0 else min i.toNat (h - 1)) < h by
        split_ifs <;> omega),
      getD_replicate, if_pos (show (if j < 0 then 0 else min j.toNat (w - 1)) < w by
        split_ifs <;> omega)]

/-- Horizontal Sobel derivative vanishes on a blank image. -/
lemma sdx_blank (h w c : Nat) (hh : 0 < h) (hw : 0 < w) (i j : Nat) :
    sdx (blankG h w c) i j = 0 := by
  unfold sdx
  simp only [pxRep_blank h w c hh hw]
  ring

/-- Vertical Sobel derivative vanishes on a blank image. -/
lemma sdy_blank (h w c : Nat) (hh : 0 < h) (hw : 0 < w) (i j : Nat) :
    sdy (blankG h w c) i j = 0 := by
  unfold sdy
  simp only [pxRep_blank h w c hh hw]
  ring

/-- Gradient magnitude vanishes on a blank image. -/
lemma gmag_blank (h w c : Nat) (hh : 0 < h) (hw : 0 < w) (i j : Nat) :
    gmag (blankG h w c) i j = 0 := by
  unfold gmag
  rw [sdx_blank h w c hh hw i j, sdy_blank h w c hh hw i j]
  rfl

/-- No pixel of a blank image passes the low threshold. -/
lemma isCand_blank (h w c : Nat) (hh : 0 < h) (hw : 0 < w) (i j : Nat) :
    isCand (blankG h w c) i j = false := by
  unfold isCand
  rw [gmag_blank h w c hh hw i j]
  rfl

/-- No edge candidates on a blank image. -/
lemma candList_blank (h w c : Nat) (hh : 0 < h) (hw : 0 < w) :
    candList (blankG h w c) = [] := by
  unfold candList
  refine List.filter_eq_nil_iff.mpr (fun p hp => ?_)
  simp [isCand_blank h w c hh hw]

/-- No strong seeds on a blank image. -/
lemma seedList_blank (h w c : Nat) (hh : 0 < h) (hw : 0 < w) :
    seedList (blankG h w c) = [] := by
  unfold seedList
  rw [candList_blank h w c hh hw]
  rfl

/-- The edge set of a blank image is empty. -/
lemma cannyEdgeSet_blank (h w c : Nat) (hh : 0 < h) (hw : 0 < w) :
    cannyEdgeSet (blankG h w c) = [] := by
  unfold cannyEdgeSet
  rw [candList_blank h w c hh hw, seedList_blank h w c hh hw,
      show (blankG h w c).height * (blankG h w c).width * 8 + 8
          = ((blankG h w c).height * (blankG h w c).width * 8 + 7) + 1 from rfl]
  rfl

/-- The Canny output on a blank image is the all-zero grid. -/
lemma canny30100_blank (h w c : Nat) (hh : 0 < h) (hw : 0 < w) :
    canny30100 (blankG h w c) = blankG h w 0 := by
  unfold canny30100
  rw [cannyEdgeSet_blank h w c hh hw, blankG_height, blankG_width h w c hh]
  refine List.eq_replicate_iff.mpr ⟨by simp, fun row hrow => ?_⟩
  obtain ⟨i, hi, rfl⟩ := List.mem_map.mp hrow
  refine List.eq_replicate_iff.mpr ⟨by simp, fun px hpx => ?_⟩
  obtain ⟨j, hj, rfl⟩ := List.mem_map.mp hpx
  rfl

/-- Reading the all-zero grid anywhere gives 0. -/
lemma edgeAt_blank0 (h w : Nat) (p : Int × Int) : edgeAt (blankG h w 0) p = 0 := by
  unfold edgeAt
  split_ifs with h1
  · rfl
  · rw [show blankG h w 0 = List.replicate h (List.replicate w 0) from rfl,
        getD_replicate]
    split_ifs with h2
    · rw [getD_replicate]; split_ifs <;> rfl
    · rfl

/-- A fold whose step never changes the state returns the start state. -/
lemma foldl_id {α β : Type} (f : β → α → β) (l : List α) (s : β)
    (hf : ∀ s a, f s a = s) : l.foldl f s = s := by
  induction l generalizing s with
  | nil => rfl
  | cons a t ih => rw [List.foldl_cons, hf s a, ih]

/-- Contour extraction on the all-zero edge map finds nothing. -/
lemma findContoursExt_blank (h w : Nat) :
    findContoursExt (blankG h w 0) = [] := by
  unfold findContoursExt
  rw [foldl_id _ _ _ (fun st c =>
    if_neg (fun hc => hc.1 (edgeAt_blank0 h w _)))]

/-- The full pipeline on a blank grayscale image yields zero contours. -/
lemma pipeline_blank_gray (h w c : Nat) (hh : 0 < h) (hw : 0 < w) :
    pipelineContours (Img.gray (blankG h w c)) = Except.ok [] := by
  rw [pipeline_gray, gaussianBlur5_ok _ (numelZero_blank h w c hh hw)]
  show Except.ok (findContoursExt (canny30100 (blurGrid (blankG h w c)))) = Except.ok []
  rw [blurGrid_blank h w c hh hw, canny30100_blank h w c hh hw,
      findContoursExt_blank h w]

/-- A blank RGB image with positive dimensions has pixels. -/
lemma numelZeroRGB_blank (h w r g b : Nat) (hh : 0 < h) (hw : 0 < w) :
    numelZeroRGB (blankRGB h w r g b) = false := by
  cases h with
  | zero => omega
  | succ m =>
      cases w with
      | zero => omega
      | succ k => rfl

/-- Luminance conversion of a blank RGB image is a blank grayscale image. -/
lemma grayOfRGB_blank (h w r g b : Nat) :
    grayOfRGB (blankRGB h w r g b) =
      blankG h w ((4899 * r + 9617 * g + 1868 * b + 8192) / 16384) := by
  unfold grayOfRGB blankRGB blankG
  rw [List.map_replicate, List.map_replicate]

/-- The full pipeline on a blank RGB image yields zero contours. -/
lemma pipeline_blank_rgb (h w r g b : Nat) (hh : 0 < h) (hw : 0 < w) :
    pipelineContours (Img.rgb (blankRGB h w r g b)) = Except.ok [] := by
  have hcv : cvtColorRGB2GRAY (blankRGB h w r g b) =
      Except.ok (grayOfRGB (blankRGB h w r g b)) := by
    unfold cvtColorRGB2GRAY
    rw [if_neg (by rw [numelZeroRGB_blank h w r g b hh hw]; exact Bool.false_ne_true)]
  rw [pipeline_rgb, hcv]
  show (match gaussianBlur5 (grayOfRGB (blankRGB h w r g b)) with
        | Except.error e => Except.error e
        | Except.ok bl => Except.ok (findContoursExt (canny30100 bl))) = Except.ok []
  rw [grayOfRGB_blank h w r g b,
      gaussianBlur5_ok _ (numelZero_blank h w _ hh hw)]
  show Except.ok (findContoursExt (canny30100 (blurGrid (blankG h w _)))) = Except.ok []
  rw [blurGrid_blank h w _ hh hw, canny30100_blank h w _ hh hw,
      findContoursExt_blank h w]

/-- C7.  Every uniformly blank (constant-intensity) non-empty image — of
any size and any constant value, grayscale or RGB — passes through blur
and edge detection with zero gradient everywhere, yields zero contours,
and therefore gets the "No tumor detected" verdict. -/
theorem blank_image_no_tumor (h w : Nat) (hh : 0 < h) (hw : 0 < w) (img : Img)
    (himg : (∃ c, img = Img.gray (blankG h w c)) ∨
            (∃ r g b, img = Img.rgb (blankRGB h w r g b))) :
    pipelineContours img = Except.ok [] ∧
    analyze_tumor img = Except.ok noTumorVerdict := by
  rcases himg with ⟨c, rfl⟩ | ⟨r, g, b, rfl⟩
  · have hp := pipeline_blank_gray h w c hh hw
    exact ⟨hp, analyze_eq_noTumor _ hp⟩
  · have hp := pipeline_blank_rgb h w r g b hh hw
    exact ⟨hp, analyze_eq_noTumor _ hp⟩

/-- Witness for C7 at a concrete 2×3 blank image of intensity 17. -/
theorem blank_image_no_tumor_witness :
    pipelineContours (Img.gray (blankG 2 3 17)) = Except.ok [] ∧
    analyze_tumor (Img.gray (blankG 2 3 17)) = Except.ok noTumorVerdict :=
  blank_image_no_tumor 2 3 (by decide) (by decide) (Img.gray (blankG 2 3 17))
    (Or.inl ⟨17, rfl⟩)

/-! ## C8: the renderer does not mutate its input

`create_visualization` works on numpy buffers.  To make the mutation claim
expressible, buffers are cells of an explicit heap: cell 0 holds the
caller's PIL pixel data, `np.array(image)` copies it into cell 1
(`img_array`; numpy always copies a PIL image), and the `output` array —
`img_array.copy()` for colour input, the fresh `GRAY2RGB` conversion for
grayscale input — is cell 2.  `cv2.drawContours` and `cv2.rectangle` write
their target array in place: each call is a `set` of cell 2. -/

/-- A numpy array buffer: 2-D (grayscale) or 3-D (colour). -/
inductive Buf
  | g (rows : Gray)
  | c (rows : RGBRows)
deriving DecidableEq

/-- The heap of live buffers, addressed by position. -/
abbrev Heap := List Buf

/-- The buffer holding an image's pixel data. -/
def bufOfImg : Img → Buf
  | .gray r => .g r
  | .rgb r => .c r

/-- Proximity of pixel (row `i`, col `j`) to a contour point `(x, y)`:
the thickness-2 pen of `cv2.drawContours`. -/
def nearPt (i j : Nat) (p : Int × Int) : Bool :=
  decide ((p.1 - (j : Int)).natAbs ≤ 1 ∧ (p.2 - (i : Int)).natAbs ≤ 1)

/-- Model of `cv2.drawContours(output, contours, -1, (0, 255, 0), 2)`:
pixels within the pen radius of a contour point turn green.  OpenCV's
exact polyline rasterization is approximated by the pen neighbourhood of
the recorded points; the claims below concern which buffer is written,
not the drawn glyph. -/
def drawContoursGreen (out : RGBRows) (cs : List Contour) : RGBRows :=
  out.mapIdx (fun i row => row.mapIdx (fun j px =>
    if cs.any (fun cnt => cnt.any (nearPt i j)) then (0, 255, 0) else px))

/-- Model of `cv2.boundingRect(contour)`: `(x, y, w, h)` of the point set. -/
def boundingRect (cnt : Contour) : Int × Int × Int × Int :=
  match cnt with
  | [] => (0, 0, 0, 0)
  | p :: ps =>
      (ps.foldl (fun m q => min m q.1) p.1,
       ps.foldl (fun m q => min m q.2) p.2,
       ps.foldl (fun m q => max m q.1) p.1 - ps.foldl (fun m q => min m q.1) p.1 + 1,
       ps.foldl (fun m q => max m q.2) p.2 - ps.foldl (fun m q => min m q.2) p.2 + 1)

/-- Membership in the thickness-2 border band of the rectangle from
`(x, y)` to `(x+w, y+h)` (approximate rasterization of `cv2.rectangle`). -/
def onRectBorder (r : Int × Int × Int × Int) (i j : Nat) : Bool :=
  decide ((r.1 - 1 ≤ (j : Int) ∧ (j : Int) ≤ r.1 + r.2.2.1 + 1 ∧
           r.2.1 - 1 ≤ (i : Int) ∧ (i : Int) ≤ r.2.1 + r.2.2.2 + 1) ∧
          ¬(r.1 + 2 ≤ (j : Int) ∧ (j : Int) ≤ r.1 + r.2.2.1 - 2 ∧
            r.2.1 + 2 ≤ (i : Int) ∧ (i : Int) ≤ r.2.1 + r.2.2.2 - 2))

/-- Model of `cv2.rectangle(output, (x, y), (x+w, y+h), (255, 0, 0), 2)`. -/
def drawRectRed (out : RGBRows) (r : Int × Int × Int × Int) : RGBRows :=
  out.mapIdx (fun i row => row.mapIdx (fun j px =>
    if onRectBorder r i j then (255, 0, 0) else px))

/-- The colour array the renderer draws on: `output = img_array.copy()`
for colour input, `cv2.cvtColor(img_array, cv2.COLOR_GRAY2RGB)` for
grayscale input. -/
def outInit : Img → RGBRows
  | .rgb rows => rows
  | .gray rows => cvtColorGRAY2RGB rows

/-- Read the renderer's `output` buffer (cell 2). -/
def outRows (hp : Heap) : RGBRows :=
  match hp.getD 2 (Buf.c []) with
  | .c r => r
  | .g _ => []

/-- Embedding of `create_visualization` from
`src/utils/image_processor.py` over the buffer heap: returns the final
heap and the address of the returned annotated image.  The contour
re-derivation is the same grayscale/blur/Canny/findContours composition
as the classifier (the source duplicates those lines). -/
def create_visualization (image : Img) : Except PyErr (Heap × Nat) :=
  match pipelineContours image with
  | .error e => .error e
  | .ok contours =>
      let h0 : Heap := [bufOfImg image, bufOfImg image, Buf.c (outInit image)]
      let h1 : Heap := h0.set 2 (Buf.c (drawContoursGreen (outRows h0) contours))
      let h2 : Heap := contours.foldl
        (fun hp cnt => hp.set 2 (Buf.c (drawRectRed (outRows hp) (boundingRect cnt)))) h1
      .ok (h2, 2)

/-- Writing cell 2 leaves cell 0 unchanged. -/
lemma getD_zero_set_two (l : Heap) (v : Buf) :
    (l.set 2 v).getD 0 (Buf.g []) = l.getD 0 (Buf.g []) := by
  cases l with
  | nil => rfl
  | cons a t => rfl

/-- The rectangle-drawing fold only writes cell 2, so cell 0 survives. -/
lemma getD_zero_rect_fold (cs : List Contour) (hp : Heap) :
    (cs.foldl (fun hp cnt =>
        hp.set 2 (Buf.c (drawRectRed (outRows hp) (boundingRect cnt)))) hp).getD 0
      (Buf.g []) = hp.getD 0 (Buf.g []) := by
  induction cs generalizing hp with
  | nil => rfl
  | cons cnt t ih => rw [List.foldl_cons, ih, getD_zero_set_two]

/-- A valid image has at least one pixel. -/
lemma valid_nonempty (img : Img) (hv : img.Valid) : imgNumelZero img = false := by
  cases img with
  | gray rows =>
      obtain ⟨hne, hwpos, hlen, -⟩ := hv
      cases rows with
      | nil => exact absurd rfl hne
      | cons r t =>
          cases r with
          | nil => simp [Gray.width] at hwpos
          | cons a rr => rfl
  | rgb rows =>
      obtain ⟨hne, hwpos, hlen, -⟩ := hv
      cases rows with
      | nil => exact absurd rfl hne
      | cons r t =>
          cases r with
          | nil => simp at hwpos
          | cons a rr => rfl

/-- C8.  For every valid input image, `create_visualization` leaves the
caller's pixel buffer (heap cell 0) unchanged: all drawing happens on the
`output` copy (heap cell 2). -/
theorem render_preserves_input (img : Img) (hv : img.Valid) :
    ∃ hp, create_visualization img = Except.ok (hp, 2) ∧
      hp.getD 0 (Buf.g []) = bufOfImg img := by
  obtain ⟨cs, hpip⟩ := pipeline_ok_of_nonempty img (valid_nonempty img hv)
  unfold create_visualization
  rw [hpip]
  refine ⟨_, rfl, ?_⟩
  rw [getD_zero_rect_fold, getD_zero_set_two]
  rfl

/-- Witness for C8 at a concrete 1×1 image. -/
theorem render_preserves_input_witness :
    ∃ hp, create_visualization (Img.gray [[0]]) = Except.ok (hp, 2) ∧
      hp.getD 0 (Buf.g []) = bufOfImg (Img.gray [[0]]) :=
  render_preserves_input (Img.gray [[0]]) (by decide)

end TumorApp
